import Mathlib

/-!
# Verification of the `yab` lexer core

A shallow embedding of the tokenizer in `crates/yab-parser/src/lexer/`
(`mod.rs`, `regex.rs`, `operator.rs`), together with models of the
sub-lexers whose sources are not in the visible tree (`code_iter.rs`,
`comment.rs`, `ident.rs`, `num.rs`, `punctuation.rs`, `string.rs`,
`template.rs`, `utils.rs`); those are marked `Modelled from the spec:` and
follow the natural-language specification's description of the missing
module.  Machine strings are `List Char`/`String`; the Rust `f64` numeric
payload is modelled as `ℚ` (the decoded decimal magnitude).
-/

namespace Yab

/-- ASCII apostrophe, used when rendering diagnostic messages. -/
def quoteMark : String := String.singleton (Char.ofNat 39)

/-- Renders a character the way the Rust format string `{}` wrapped in
apostrophes does, e.g. for the character z the string "'z'". -/
def quoted (c : Char) : String := quoteMark ++ String.singleton c ++ quoteMark

/-- The backtick character that delimits template literals. -/
def backtick : Char := Char.ofNat 96

/-- Modelled from the spec: `SourcePosition` of `code_iter.rs` —
`{ offset, line (1-based), column (1-based) }`. -/
structure SourcePosition where
  offset : Nat
  line : Nat
  column : Nat
  deriving DecidableEq, Repr

/-- Modelled from the spec: a diagnostic (`miette`-style error) carrying the
source-unit name, a span and a human-readable message, as produced by the
`current_span_error!` / `previous_span_error!` macros of `code_iter.rs`. -/
structure Diag where
  source_name : String
  start : SourcePosition
  stop : SourcePosition
  message : String
  deriving DecidableEq, Repr

/-- Modelled from the spec: `is_line_terminator` of `utils.rs` — recognizes
the line-terminator characters (LF, CR, U+2028 LINE SEPARATOR, U+2029
PARAGRAPH SEPARATOR). -/
def is_line_terminator (c : Char) : Bool :=
  c = Char.ofNat 10 || c = Char.ofNat 13 || c = Char.ofNat 0x2028 || c = Char.ofNat 0x2029

/-- Executable stand-in for Rust `char::is_whitespace` (Unicode
White_Space), by code point: space, tab, LF, VT, FF, CR, NEL, NBSP, LINE
SEPARATOR, PARAGRAPH SEPARATOR.  The full Unicode property has a few more
code points (U+1680, U+2000-U+200A, U+202F, U+205F, U+3000); the stand-in
agrees with Rust on every input appearing in this development, and the
properties quantifying over the predicate take it as an opaque parameter
instead of relying on this list. -/
def is_rust_whitespace (c : Char) : Bool :=
  c.toNat = 32 || c.toNat = 9 || c.toNat = 10 || c.toNat = 11 || c.toNat = 12 ||
    c.toNat = 13 || c.toNat = 133 || c.toNat = 160 || c.toNat = 8232 || c.toNat = 8233

/-- Executable stand-in for Rust `char::is_alphabetic` (Unicode
Alphabetic), restricted to the ASCII letter ranges.  It agrees with Rust on
every input appearing in this development; the properties quantifying over
the predicate take it as an opaque parameter instead of relying on this
restriction. -/
def is_rust_alphabetic (c : Char) : Bool :=
  (65 ≤ c.toNat && c.toNat ≤ 90) || (97 ≤ c.toNat && c.toNat ≤ 122)

/-- Modelled from the spec: the `CodeIter` source cursor of `code_iter.rs`:
a position-tracking character stream over one named source unit, supporting
`peek`, `next` (advance, updating line/column/offset) and span helpers. -/
structure CodeIter where
  source_name : String
  remaining : List Char
  pos : SourcePosition
  deriving DecidableEq, Repr

namespace CodeIter

/-- `peek()` — look at the current character without consuming it. -/
def peek (it : CodeIter) : Option Char := it.remaining.head?

/-- `next()` — consume one character, advancing the position: a
line-terminator resets the column to 1 and increments the line, any other
character increments the column. -/
def advance (it : CodeIter) : CodeIter :=
  match it.remaining with
  | [] => it
  | c :: cs =>
    { it with
      remaining := cs
      pos :=
        if is_line_terminator c then
          ⟨it.pos.offset + 1, it.pos.line + 1, 1⟩
        else
          ⟨it.pos.offset + 1, it.pos.line, it.pos.column + 1⟩ }

/-- Consume `n` characters. -/
def advanceN (it : CodeIter) : Nat → CodeIter
  | 0 => it
  | n + 1 => (advance it).advanceN n

/-- `current_position()`. -/
def current_position (it : CodeIter) : SourcePosition := it.pos

end CodeIter

/-- Modelled from the spec: the `current_span_error!` macro — a diagnostic
whose span starts and ends at the given (current) position. -/
def current_span_error (it : CodeIter) (pos : SourcePosition) (msg : String) : Diag :=
  ⟨it.source_name, pos, pos, msg⟩

/-- Modelled from the spec: the `previous_span_error!` macro — a diagnostic
spanning from a remembered start position to the current position. -/
def previous_span_error (it : CodeIter) (start : SourcePosition) (msg : String) : Diag :=
  ⟨it.source_name, start, it.current_position, msg⟩

/-! ## Token payload types -/

/-- Modelled from the spec: the keyword table of `ident.rs`
(a closed set such as `const`, `function`, `return`, `export`). -/
inductive KeywordType
  | Const | Function | Return | Export | Let | Var | If | Else | Class | New
  deriving DecidableEq, Repr

/-- `Keyword` token payload. -/
structure Keyword where
  kind : KeywordType
  deriving DecidableEq, Repr

/-- `Identifier` token payload (the identifier lexeme). -/
structure Identifier where
  name : String
  deriving DecidableEq, Repr

/-- Modelled from the spec: the value-literal table of `ident.rs`
(`true`, `false`, `null`, `undefined`). -/
inductive ValueLiteralType
  | True | False | Null | Undefined
  deriving DecidableEq, Repr

/-- `ValueLiteral` token payload. -/
structure ValueLiteral where
  kind : ValueLiteralType
  deriving DecidableEq, Repr

/-- `OperatorType` of `operator.rs`: the visible variants are `Plus` (+),
`Assignment` (=), `LooseEquality` (==), `StrictEquality` (===); the further
variants used by the driver's own test and the spec (`Division` (/),
`LogicalAnd` (&&)) and the word-shaped operators (`await`, `typeof`) are
modelled from the spec. -/
inductive OperatorType
  | Plus | Assignment | LooseEquality | StrictEquality
  | Division | LogicalAnd | Await | Typeof
  deriving DecidableEq, Repr

/-- `Operator` token payload (`operator.rs`). -/
structure Operator where
  kind : OperatorType
  deriving DecidableEq, Repr

/-- Modelled from the spec: the punctuation table of `punctuation.rs`
(parentheses, braces, comma, dot, semicolon, etc.). -/
inductive PunctuationType
  | OpenParen | CloseParen | OpenBrace | CloseBrace
  | OpenBracket | CloseBracket | Comma | Dot | Semicolon | Colon
  deriving DecidableEq, Repr

/-- `Punctuation` token payload. -/
structure Punctuation where
  kind : PunctuationType
  deriving DecidableEq, Repr

/-- Modelled from the spec: `CommentType` of `comment.rs` — line comments,
block comments, and the hashbang line recognized only at the very start of a
source unit. -/
inductive CommentType
  | Line (content : String)
  | Block (content : String)
  | Hashbang (content : String)
  deriving DecidableEq, Repr

/-- `Comment` token payload. -/
structure Comment where
  kind : CommentType
  deriving DecidableEq, Repr

/-- `NumberLiteral` payload: the decoded numeric magnitude (Rust `f64`
holding a decoded decimal value, modelled as `ℚ`). -/
structure NumberLiteral where
  value : ℚ
  deriving DecidableEq, Repr

/-- `StringLiteral` payload: the decoded string value. -/
structure StringLiteral where
  value : String
  deriving DecidableEq, Repr

/-- `TemplateLiteralString` payload: one string segment of a template
literal, with a flag marking whether it is the final segment (closed by a
backtick rather than by an embedded-expression opener). -/
structure TemplateLiteralString where
  value : String
  is_terminal : Bool
  deriving DecidableEq, Repr

/-- `RegexLiteral` of `regex.rs`: the raw pattern text between the `/`
delimiters plus the flag characters; neither is interpreted further. -/
structure RegexLiteral where
  pattern : String
  flags : String
  deriving DecidableEq, Repr

/-- The `Token` tagged union of `mod.rs`.  The Rust
`TemplateLiteralExprOpen` / `TemplateLiteralExprClose` payloads are empty
marker structs, so the corresponding variants here carry no payload. -/
inductive Token
  | Keyword (k : Keyword)
  | Ident (i : Identifier)
  | ValueLiteral (v : ValueLiteral)
  | Operator (o : Operator)
  | Punctuation (p : Punctuation)
  | Comment (c : Comment)
  | NumericLiteral (n : NumberLiteral)
  | StringLiteral (s : StringLiteral)
  | TemplateLiteralString (t : TemplateLiteralString)
  | TemplateLiteralExprOpen
  | TemplateLiteralExprClose
  | RegexLiteral (r : RegexLiteral)
  deriving DecidableEq, Repr

/-! ## The regex recognizer (`regex.rs`, visible source) -/

/-- `parse_regex_pattern`'s scanning loop: assuming the leading `/` has been
consumed, scan forward for the closing `/`, accumulating the raw characters
(no escape handling); a line terminator or EOF before the closing `/` is a
diagnostic.  `start_pos` is the position recorded at entry.  The `fuel`
argument only makes the recursion structural: every iteration consumes one
character, so the `remaining.length + 1` supplied by the wrapper can never
run out, and the fuel-exhaustion branch repeats the EOF case. -/
def parse_regex_pattern_loop (fuel : Nat) (it : CodeIter)
    (start_pos : SourcePosition) (lexeme : String) :
    Except Diag (String × CodeIter) :=
  match fuel with
  | 0 =>
    .error (previous_span_error it start_pos
      "Unexpected EOF while parsing regular expression")
  | fuel + 1 =>
    match it.remaining with
    | [] =>
      .error (previous_span_error it start_pos
        "Unexpected EOF while parsing regular expression")
    | next_char :: _ =>
      if next_char = '/' then
        .ok (lexeme, it.advance)
      else if is_line_terminator next_char then
        .error (previous_span_error it.advance start_pos
          "Unexpected line terminator while parsing regular expression")
      else
        parse_regex_pattern_loop fuel it.advance start_pos (lexeme.push next_char)

/-- `parse_regex_pattern` of `regex.rs`: consumes up to and including the
trailing `/`, returning the raw text in between. -/
def parse_regex_pattern (chars : CodeIter) : Except Diag (String × CodeIter) :=
  parse_regex_pattern_loop (chars.remaining.length + 1) chars chars.current_position ""

/-- Membership in the closed regex flag alphabet g, i, m, s, u, y. -/
def is_regex_flag_char (c : Char) : Bool :=
  c = 'g' || c = 'i' || c = 'm' || c = 's' || c = 'u' || c = 'y'

/-- `parse_regex_flags`' scanning loop (`regex.rs`): greedily consume flag
characters from the closed alphabet g i m s u y; whitespace or a semicolon
or any other non-alphabetic character ends scanning without being consumed;
any other alphabetic character is an invalid-flag diagnostic naming that
character.  The source branches on Rust's standard-library predicates
`char::is_whitespace` and `char::is_alphabetic`, which are code outside
this repository; the loop therefore takes the two predicates as parameters
(`is_whitespace`, `is_alphabetic`), and the `parse_regex_flags` wrapper
instantiates them with the executable stand-ins.  `fuel` as in
`parse_regex_pattern_loop`; the fuel-exhaustion branch repeats the EOF
(end-of-scan) case. -/
def parse_regex_flags_loop (is_whitespace is_alphabetic : Char → Bool)
    (fuel : Nat) (it : CodeIter) (lexeme : String) :
    Except Diag (String × CodeIter) :=
  match fuel with
  | 0 => .ok (lexeme, it)
  | fuel + 1 =>
    match it.remaining with
    | [] => .ok (lexeme, it)
    | next_char :: _ =>
      if is_regex_flag_char next_char then
        parse_regex_flags_loop is_whitespace is_alphabetic fuel it.advance
          (lexeme.push next_char)
      else if is_whitespace next_char then
        .ok (lexeme, it)
      else if next_char = ';' then
        .ok (lexeme, it)
      else if is_alphabetic next_char then
        .error (current_span_error it it.current_position
          ("Invalid regular expression flag " ++ quoted next_char))
      else
        .ok (lexeme, it)

/-- `parse_regex_flags` of `regex.rs`, with the standard-library character
predicates instantiated by their stand-ins (which agree with Rust on every
input appearing in this development). -/
def parse_regex_flags (chars : CodeIter) : Except Diag (String × CodeIter) :=
  parse_regex_flags_loop is_rust_whitespace is_rust_alphabetic
    (chars.remaining.length + 1) chars ""

/-- The previous-token test of `try_parse_regex_literal` (`regex.rs`): the
recognizer may open a regex literal only when the previously emitted token
is an Operator, a comma or open-parenthesis Punctuation, or `None`. -/
def regex_allowed_prev : Option Token → Bool
  | some (.Operator _) => true
  | some (.Punctuation ⟨.Comma⟩) => true
  | some (.Punctuation ⟨.OpenParen⟩) => true
  | none => true
  | _ => false

/-- `try_parse_regex_literal` of `regex.rs`: when the previous token allows
a regex context and the current character is `/`, consume the `/` and parse
pattern then flags; otherwise report no match (`Ok(None)`), consuming
nothing. -/
def try_parse_regex_literal (chars : CodeIter) (previous_token : Option Token) :
    Except Diag (Option (RegexLiteral × CodeIter)) :=
  if regex_allowed_prev previous_token then
    if chars.peek = some '/' then
      match parse_regex_pattern chars.advance with
      | .error d => .error d
      | .ok (pattern, it₁) =>
        match parse_regex_flags it₁ with
        | .error d => .error d
        | .ok (flags, it₂) => .ok (some (⟨pattern, flags⟩, it₂))
    else .ok none
  else
    .ok none

/-- Build the cursor for a source string, as `src.into_code_iterator(name)`
does. -/
def mkIter (src : String) (file_name : String) : CodeIter :=
  ⟨file_name, src.data, ⟨0, 1, 1⟩⟩

/-! ## Comments (`comment.rs`, modelled) -/

/-- Consume characters through end of line (stopping before the terminator)
or EOF, accumulating the comment content. -/
def line_comment_loop (fuel : Nat) (it : CodeIter) (acc : String) :
    String × CodeIter :=
  match fuel with
  | 0 => (acc, it)
  | fuel + 1 =>
    match it.remaining with
    | [] => (acc, it)
    | c :: _ =>
      if is_line_terminator c then (acc, it)
      else line_comment_loop fuel it.advance (acc.push c)

/-- Consume characters through a closing `*/` delimiter (or EOF; the driver
types this recognizer as infallible, so the model consumes to EOF rather
than diagnosing). -/
def block_comment_loop (fuel : Nat) (it : CodeIter) (acc : String) :
    String × CodeIter :=
  match fuel with
  | 0 => (acc, it)
  | fuel + 1 =>
    match it.remaining with
    | [] => (acc, it)
    | '*' :: '/' :: _ => (acc, it.advance.advance)
    | c :: _ => block_comment_loop fuel it.advance (acc.push c)

/-- Modelled from the spec: `try_parse_hashbang_comment` of `comment.rs` —
recognizes a hashbang line (`#!...`) as a comment variant; the driver only
tries it as the very first token of a source unit. -/
def try_parse_hashbang_comment (it : CodeIter) : Option (Comment × CodeIter) :=
  match it.remaining with
  | '#' :: '!' :: _ =>
    let (content, it') := line_comment_loop it.remaining.length it.advance.advance ""
    some (⟨.Hashbang content⟩, it')
  | _ => none

/-- Modelled from the spec: `try_parse_comment` of `comment.rs` — recognizes
`//`-style line comments (through end of line or EOF) and `/* ... */` block
comments. -/
def try_parse_comment (it : CodeIter) : Option (Comment × CodeIter) :=
  match it.remaining with
  | '/' :: '/' :: _ =>
    let (content, it') := line_comment_loop it.remaining.length it.advance.advance ""
    some (⟨.Line content⟩, it')
  | '/' :: '*' :: _ =>
    let (content, it') := block_comment_loop it.remaining.length it.advance.advance ""
    some (⟨.Block content⟩, it')
  | _ => none

/-! ## Identifiers, keywords, value literals (`ident.rs`, modelled) -/

/-- Identifier-grammar start character: letter, underscore or dollar. -/
def is_ident_start (c : Char) : Bool :=
  is_rust_alphabetic c || c = '_' || c = '$'

/-- Identifier-grammar continuation character. -/
def is_ident_continue (c : Char) : Bool :=
  c.isAlphanum || c = '_' || c = '$'

/-- Consume a maximal identifier-grammar lexeme. -/
def ident_loop (fuel : Nat) (it : CodeIter) (acc : String) : String × CodeIter :=
  match fuel with
  | 0 => (acc, it)
  | fuel + 1 =>
    match it.remaining with
    | [] => (acc, it)
    | c :: _ =>
      if is_ident_continue c then ident_loop fuel it.advance (acc.push c)
      else (acc, it)

/-- Modelled from the spec: the closed keyword table of `ident.rs`. -/
def keyword_kind_of (s : String) : Option KeywordType :=
  if s = "const" then some .Const
  else if s = "function" then some .Function
  else if s = "return" then some .Return
  else if s = "export" then some .Export
  else if s = "let" then some .Let
  else if s = "var" then some .Var
  else if s = "if" then some .If
  else if s = "else" then some .Else
  else if s = "class" then some .Class
  else if s = "new" then some .New
  else none

/-- Modelled from the spec: the closed value-literal table of `ident.rs`. -/
def value_literal_kind_of (s : String) : Option ValueLiteralType :=
  if s = "true" then some .True
  else if s = "false" then some .False
  else if s = "null" then some .Null
  else if s = "undefined" then some .Undefined
  else none

/-- Modelled from the spec: the word-shaped operators of `ident.rs` —
reserved words such as `await` and `typeof` classified as Operator tokens
rather than keywords. -/
def word_operator_kind_of (s : String) : Option OperatorType :=
  if s = "await" then some .Await
  else if s = "typeof" then some .Typeof
  else none

/-- `IdentParseResult` of `ident.rs`: the four classifications of an
identifier-grammar lexeme. -/
inductive IdentParseResult
  | Identifier (i : Identifier)
  | Keyword (k : Keyword)
  | ValueLiteral (v : ValueLiteral)
  | Operator (o : Operator)
  deriving DecidableEq, Repr

/-- Modelled from the spec: `try_parse_identifier` of `ident.rs` —
recognizes a maximal identifier-grammar lexeme and classifies it against
the keyword, value-literal and word-operator tables, defaulting to a
generic identifier. -/
def try_parse_identifier (it : CodeIter) :
    Except Diag (Option (IdentParseResult × CodeIter)) :=
  match it.peek with
  | some c =>
    if is_ident_start c then
      let (lexeme, it') := ident_loop it.remaining.length it ""
      match keyword_kind_of lexeme with
      | some k => .ok (some (.Keyword ⟨k⟩, it'))
      | none =>
        match value_literal_kind_of lexeme with
        | some v => .ok (some (.ValueLiteral ⟨v⟩, it'))
        | none =>
          match word_operator_kind_of lexeme with
          | some o => .ok (some (.Operator ⟨o⟩, it'))
          | none => .ok (some (.Identifier ⟨lexeme⟩, it'))
    else .ok none
  | none => .ok none

/-! ## Numeric literals (`num.rs`, modelled) -/

/-- Consume a maximal run of decimal digits, returning the decoded value,
the number of digits consumed, and the rest. -/
def digits_loop (fuel : Nat) (it : CodeIter) (acc : Nat) (count : Nat) :
    Nat × Nat × CodeIter :=
  match fuel with
  | 0 => (acc, count, it)
  | fuel + 1 =>
    match it.remaining with
    | [] => (acc, count, it)
    | c :: _ =>
      if c.isDigit then
        digits_loop fuel it.advance (acc * 10 + (c.toNat - 48)) (count + 1)
      else (acc, count, it)

/-- The decoded decimal magnitude `ip.frac × 10^(±ex)` as a rational,
computed as an explicit quotient of naturals (`(ip·10^fd + frac) / 10^fd`,
then scaled by `10^ex` on the appropriate side). -/
def decoded_number (ip frac fd : Nat) (neg_exp : Bool) (ex : Nat) : ℚ :=
  if neg_exp then
    mkRat (Int.ofNat (ip * 10 ^ fd + frac)) (10 ^ fd * 10 ^ ex)
  else
    mkRat (Int.ofNat ((ip * 10 ^ fd + frac) * 10 ^ ex)) (10 ^ fd)

/-- Modelled from the spec: `try_parse_number` of `num.rs` — recognizes a
maximal valid numeric lexeme (integer, fractional and exponent forms) and
returns the decoded numeric value; a malformed lexeme (an exponent marker
with no digits) is a diagnostic. -/
def try_parse_number (it : CodeIter) : Except Diag (Option (ℚ × CodeIter)) :=
  match it.peek with
  | none => .ok none
  | some c =>
    if c.isDigit then
      let (ip, _, it₁) := digits_loop it.remaining.length it 0 0
      let (frac, fd, it₂) :=
        if it₁.peek = some '.' then
          digits_loop it₁.remaining.length it₁.advance 0 0
        else (0, 0, it₁)
      if it₂.peek = some 'e' ∨ it₂.peek = some 'E' then
        let it₃ := it₂.advance
        let (neg_exp, it₄) :=
          if it₃.peek = some '-' then (true, it₃.advance)
          else if it₃.peek = some '+' then (false, it₃.advance)
          else (false, it₃)
        let (ex, exd, it₅) := digits_loop it₄.remaining.length it₄ 0 0
        if exd = 0 then
          .error (current_span_error it₅ it₅.current_position
            "Malformed numeric literal")
        else .ok (some (decoded_number ip frac fd neg_exp ex, it₅))
      else .ok (some (decoded_number ip frac fd false 0, it₂))
    else .ok none

/-! ## String literals (`string.rs`, modelled) -/

/-- Modelled from the spec: the shared escape-decoding utility of
`escape_chars.rs`, for single-character escapes (the Unicode escape forms
are not needed by any property below). -/
def decode_escape (c : Char) : Char :=
  if c = 'n' then Char.ofNat 10
  else if c = 't' then Char.ofNat 9
  else if c = 'r' then Char.ofNat 13
  else if c = 'b' then Char.ofNat 8
  else if c = 'f' then Char.ofNat 12
  else if c = 'v' then Char.ofNat 11
  else if c = '0' then Char.ofNat 0
  else c

/-- Scan a quoted string body up to the matching quote, decoding escape
sequences; EOF before the closing quote is a diagnostic. -/
def string_body_loop (fuel : Nat) (it : CodeIter) (quote : Char) (acc : String) :
    Except Diag (String × CodeIter) :=
  match fuel with
  | 0 =>
    .error (current_span_error it it.current_position
      "Unexpected EOF while parsing string literal")
  | fuel + 1 =>
    match it.remaining with
    | [] =>
      .error (current_span_error it it.current_position
        "Unexpected EOF while parsing string literal")
    | c :: rest =>
      if c = quote then .ok (acc, it.advance)
      else if c = '\\' then
        match rest with
        | [] =>
          .error (current_span_error it it.current_position
            "Unexpected EOF while parsing string literal")
        | e :: _ => string_body_loop fuel it.advance.advance quote (acc.push (decode_escape e))
      else string_body_loop fuel it.advance quote (acc.push c)

/-- Modelled from the spec: `try_parse_string` of `string.rs` — recognizes a
lexeme delimited by matching quote characters, decoding escapes. -/
def try_parse_string (it : CodeIter) :
    Except Diag (Option (StringLiteral × CodeIter)) :=
  match it.peek with
  | some c =>
    if c = '"' ∨ c = Char.ofNat 39 then
      match string_body_loop it.remaining.length it.advance c "" with
      | .error d => .error d
      | .ok (value, it') => .ok (some (⟨value⟩, it'))
    else .ok none
  | none => .ok none

/-! ## Template literals (`template.rs`, modelled) -/

/-- The `{` character. -/
def brace_open : Char := Char.ofNat 123

/-- The `}` character. -/
def brace_close : Char := Char.ofNat 125

/-- Scan one string segment of a template literal, up to a closing backtick
(second component `true`) or an embedded-expression opener (second
component `false`), decoding escapes; EOF first is an unterminated-template
diagnostic. -/
def template_segment_loop (fuel : Nat) (it : CodeIter) (acc : String) :
    Except Diag (String × Bool × CodeIter) :=
  match fuel with
  | 0 =>
    .error (current_span_error it it.current_position
      "Unexpected EOF while parsing template literal")
  | fuel + 1 =>
    match it.remaining with
    | [] =>
      .error (current_span_error it it.current_position
        "Unexpected EOF while parsing template literal")
    | c :: rest =>
      if c = backtick then .ok (acc, true, it.advance)
      else if c = '$' ∧ rest.head? = some brace_open then
        .ok (acc, false, it.advance.advance)
      else if c = '\\' then
        match rest with
        | [] =>
          .error (current_span_error it it.current_position
            "Unexpected EOF while parsing template literal")
        | e :: _ => template_segment_loop fuel it.advance.advance (acc.push (decode_escape e))
      else template_segment_loop fuel it.advance (acc.push c)

/-- Modelled from the spec: `try_parse_template_literal_start` of
`template.rs` — on an opening backtick, scan the first string segment; the
Boolean reports whether a `TemplateLiteralExprOpen` marker follows (the
segment ended in an embedded-expression opener rather than a backtick). -/
def try_parse_template_literal_start (it : CodeIter) :
    Except Diag (Option (TemplateLiteralString × Bool × CodeIter)) :=
  match it.peek with
  | some c =>
    if c = backtick then
      match template_segment_loop it.remaining.length it.advance "" with
      | .error d => .error d
      | .ok (content, terminal, it') =>
        .ok (some (⟨content, terminal⟩, !terminal, it'))
    else .ok none
  | none => .ok none

/-- Modelled from the spec: `try_parse_template_literal_expr_end` of
`template.rs` — on the brace closing an embedded expression, resume
string-segment scanning; returns the next segment and whether another
`TemplateLiteralExprOpen` marker follows. -/
def try_parse_template_literal_expr_end (it : CodeIter) :
    Except Diag (Option (TemplateLiteralString × Bool × CodeIter)) :=
  match it.peek with
  | some c =>
    if c = brace_close then
      match template_segment_loop it.remaining.length it.advance "" with
      | .error d => .error d
      | .ok (content, terminal, it') =>
        .ok (some (⟨content, terminal⟩, !terminal, it'))
    else .ok none
  | none => .ok none

/-! ## Lexeme table matcher (`utils.rs` + `punctuation.rs`, modelled) -/

/-- The longest lexeme length appearing in a lookup table. -/
def max_lexeme_length {α : Type} (table : List (String × α)) : Nat :=
  table.foldr (fun e m => max e.1.length m) 0

/-- Find a table entry whose lexeme has exactly length `n` and matches the
next `n` characters. -/
def lookup_lexeme_of_length {α : Type} (table : List (String × α))
    (s : List Char) (n : Nat) : Option (String × α) :=
  table.find? (fun e => e.1.length == n && e.1.data == s.take n)

/-- Try candidate lexeme lengths from `n` down to 1, longest first. -/
def longest_match_aux {α : Type} (table : List (String × α)) (s : List Char) :
    Nat → Option (String × α)
  | 0 => none
  | n + 1 =>
    match lookup_lexeme_of_length table s (n + 1) with
    | some e => some e
    | none => longest_match_aux table s n

/-- Modelled from the spec: `try_parse_from_prefix_lookup` of `utils.rs` —
the shared greedy longest-match recognizer over a static (lexeme, kind)
table: attempt the longest candidate lexemes first (bounded by the longest
lexeme in the table), consume exactly the matched length on success, and
leave the cursor untouched on total failure. -/
def try_parse_from_lookup_table {α : Type} (table : List (String × α))
    (it : CodeIter) : Option (α × CodeIter) :=
  match longest_match_aux table it.remaining (max_lexeme_length table) with
  | some (lex, k) => some (k, it.advanceN lex.length)
  | none => none

/-- The static operator table of `operator.rs`: the visible entries `+`,
`=`, `==`, `===`, plus the `Division` and `LogicalAnd` entries that the
driver's own test exercises (modelled from the spec). -/
def operator_lookup_table : List (String × OperatorType) :=
  [("+", .Plus), ("=", .Assignment), ("==", .LooseEquality),
   ("===", .StrictEquality), ("/", .Division), ("&&", .LogicalAnd)]

/-- `try_parse_operator` of `operator.rs`. -/
def try_parse_operator (chars : CodeIter) : Option (Operator × CodeIter) :=
  match try_parse_from_lookup_table operator_lookup_table chars with
  | some (operator_type, it') => some (⟨operator_type⟩, it')
  | none => none

/-- Modelled from the spec: the static punctuation table of
`punctuation.rs`. -/
def punctuation_lookup_table : List (String × PunctuationType) :=
  [("(", .OpenParen), (")", .CloseParen), ("\x7b", .OpenBrace),
   ("\x7d", .CloseBrace), ("[", .OpenBracket), ("]", .CloseBracket),
   (",", .Comma), (".", .Dot), (";", .Semicolon), (":", .Colon)]

/-- Modelled from the spec: `try_parse_punctuation` of `punctuation.rs`,
reusing the shared longest-match recognizer. -/
def try_parse_punctuation (chars : CodeIter) : Option (Punctuation × CodeIter) :=
  match try_parse_from_lookup_table punctuation_lookup_table chars with
  | some (punctuation_type, it') => some (⟨punctuation_type⟩, it')
  | none => none

/-! ## The tokenizer driver (`mod.rs`, visible source) -/

/-- The session state of one `tokenize` call: the cursor, the accumulated
output tokens, and the template-nesting depth counter (a Rust signed
integer, so modelled as `ℤ` — its non-negativity is a property, not a
typing assumption). -/
structure LexState where
  chars : CodeIter
  tokens : List Token
  template_depth : Int
  deriving DecidableEq, Repr

/-- Which recognizer accepted the current dispatch iteration. -/
inductive StepKind
  | hashbang | whitespace | comment | templateStart | ident
  | templateExprEnd | regex | stringLit | number | punctuation | operator
  deriving DecidableEq, Repr

/-- The outcome of one iteration of the driver loop: the cursor is
exhausted, a diagnostic aborts tokenization, or one recognizer succeeded,
emitting `emitted` and continuing from the new state. -/
inductive StepResult
  | done
  | err (d : Diag)
  | cont (kind : StepKind) (emitted : List Token) (st : LexState)
  deriving DecidableEq, Repr

/-- The driver's match on an `IdentParseResult` (`mod.rs` lines 87-104). -/
def ident_result_token : IdentParseResult → Token
  | .Identifier i => Token.Ident i
  | .Keyword k => Token.Keyword k
  | .ValueLiteral v => Token.ValueLiteral v
  | .Operator o => Token.Operator o

/-- One iteration of the `'outer` loop of `tokenize` (`mod.rs` lines
50-156), translated branch by branch: hashbang (only while no token has
been emitted), whitespace, comment, template start (incrementing the depth),
identifier, template-expression close (only while the depth is positive;
decrementing it, and re-incrementing on a re-open), regex (seeing the last
emitted token), string, number, punctuation, operator, and otherwise the
unrecognized-token diagnostic at the current position. -/
def dispatchStep (st : LexState) : StepResult :=
  match st.chars.peek with
  | none => .done
  | some next_char =>
    match (if st.tokens.isEmpty then try_parse_hashbang_comment st.chars else none) with
    | some (cm, it') =>
      .cont .hashbang [Token.Comment cm]
        { chars := it', tokens := st.tokens ++ [Token.Comment cm],
          template_depth := st.template_depth }
    | none =>
    if is_rust_whitespace next_char then
      .cont .whitespace [] { st with chars := st.chars.advance }
    else
    match try_parse_comment st.chars with
    | some (cm, it') =>
      .cont .comment [Token.Comment cm]
        { chars := it', tokens := st.tokens ++ [Token.Comment cm],
          template_depth := st.template_depth }
    | none =>
    match try_parse_template_literal_start st.chars with
    | .error d => .err d
    | .ok (some (content, expr_open, it')) =>
      .cont .templateStart
        (Token.TemplateLiteralString content ::
          (if expr_open then [Token.TemplateLiteralExprOpen] else []))
        { chars := it',
          tokens := st.tokens ++ (Token.TemplateLiteralString content ::
            (if expr_open then [Token.TemplateLiteralExprOpen] else [])),
          template_depth := st.template_depth + 1 }
    | .ok none =>
    match try_parse_identifier st.chars with
    | .error d => .err d
    | .ok (some (parse_result, it')) =>
      .cont .ident [ident_result_token parse_result]
        { chars := it', tokens := st.tokens ++ [ident_result_token parse_result],
          template_depth := st.template_depth }
    | .ok none =>
    match (if st.template_depth > 0 then try_parse_template_literal_expr_end st.chars
           else .ok none) with
    | .error d => .err d
    | .ok (some (content, expr_open, it')) =>
      .cont .templateExprEnd
        (Token.TemplateLiteralExprClose :: Token.TemplateLiteralString content ::
          (if expr_open then [Token.TemplateLiteralExprOpen] else []))
        { chars := it',
          tokens := st.tokens ++ (Token.TemplateLiteralExprClose ::
            Token.TemplateLiteralString content ::
            (if expr_open then [Token.TemplateLiteralExprOpen] else [])),
          template_depth := st.template_depth - 1 + (if expr_open then 1 else 0) }
    | .ok none =>
    match try_parse_regex_literal st.chars st.tokens.getLast? with
    | .error d => .err d
    | .ok (some (regexp, it')) =>
      .cont .regex [Token.RegexLiteral regexp]
        { chars := it', tokens := st.tokens ++ [Token.RegexLiteral regexp],
          template_depth := st.template_depth }
    | .ok none =>
    match try_parse_string st.chars with
    | .error d => .err d
    | .ok (some (string_literal, it')) =>
      .cont .stringLit [Token.StringLiteral string_literal]
        { chars := it', tokens := st.tokens ++ [Token.StringLiteral string_literal],
          template_depth := st.template_depth }
    | .ok none =>
    match try_parse_number st.chars with
    | .error d => .err d
    | .ok (some (number_value, it')) =>
      .cont .number [Token.NumericLiteral ⟨number_value⟩]
        { chars := it', tokens := st.tokens ++ [Token.NumericLiteral ⟨number_value⟩],
          template_depth := st.template_depth }
    | .ok none =>
    match try_parse_punctuation st.chars with
    | some (p, it') =>
      .cont .punctuation [Token.Punctuation p]
        { chars := it', tokens := st.tokens ++ [Token.Punctuation p],
          template_depth := st.template_depth }
    | none =>
    match try_parse_operator st.chars with
    | some (o, it') =>
      .cont .operator [Token.Operator o]
        { chars := it', tokens := st.tokens ++ [Token.Operator o],
          template_depth := st.template_depth }
    | none =>
      .err (current_span_error st.chars st.chars.current_position
        ("Unrecognized token " ++ quoted next_char))

/-- The `'outer` loop: iterate `dispatchStep` until the cursor is exhausted
(returning the accumulated tokens) or a diagnostic aborts the call.  Every
successful iteration consumes at least one character, so the
`src.length + 1` fuel supplied by `tokenize` never runs out. -/
def tokenize_loop (fuel : Nat) (st : LexState) : Except Diag (List Token) :=
  match fuel with
  | 0 => .ok st.tokens
  | fuel + 1 =>
    match dispatchStep st with
    | .done => .ok st.tokens
    | .err d => .error d
    | .cont _ _ st' => tokenize_loop fuel st'

/-- `tokenize` of `mod.rs`: the single entry point. -/
def tokenize (src : String) (file_name : String) : Except Diag (List Token) :=
  tokenize_loop (src.data.length + 1) ⟨mkIter src file_name, [], 0⟩

/-- The same loop, additionally reporting the final `template_depth`
(observable session state, for the depth-invariant properties). -/
def tokenize_loop_depth (fuel : Nat) (st : LexState) :
    Except Diag (List Token × Int) :=
  match fuel with
  | 0 => .ok (st.tokens, st.template_depth)
  | fuel + 1 =>
    match dispatchStep st with
    | .done => .ok (st.tokens, st.template_depth)
    | .err d => .error d
    | .cont _ _ st' => tokenize_loop_depth fuel st'

/-- `tokenize` instrumented with the final depth counter. -/
def tokenize_with_depth (src : String) (file_name : String) :
    Except Diag (List Token × Int) :=
  tokenize_loop_depth (src.data.length + 1) ⟨mkIter src file_name, [], 0⟩

/-! ## The dispatch priority order, stated declaratively

The specification describes the driver as trying eleven guarded
recognizers in a fixed priority order and accepting the first success.
`run_first` is that description as a program: fold over a list of guarded
recognizers, accept the first success, propagate the first diagnostic, and
fail with the unrecognized-token diagnostic when every recognizer declines.
The claim-level theorem compares `dispatchStep` (the branch-by-branch
translation of the Rust loop body above) against `run_first` applied to the
eleven recognizers in the spec's order. -/

/-- A guarded recognizer, as one entry of the priority list: it may decline
(`none`), succeed with the accepted kind, the emitted tokens and the new
state, or abort with a diagnostic. -/
def StepRec : Type := LexState → Except Diag (Option (StepKind × List Token × LexState))

/-- (1) Hashbang comment, only if no tokens have been emitted yet. -/
def rec_hashbang : StepRec := fun st =>
  match (if st.tokens.isEmpty then try_parse_hashbang_comment st.chars else none) with
  | some (cm, it') =>
    .ok (some (.hashbang, [Token.Comment cm],
      { chars := it', tokens := st.tokens ++ [Token.Comment cm],
        template_depth := st.template_depth }))
  | none => .ok none

/-- (2) Whitespace skip. -/
def rec_whitespace : StepRec := fun st =>
  match st.chars.peek with
  | some c =>
    if is_rust_whitespace c then
      .ok (some (.whitespace, [], { st with chars := st.chars.advance }))
    else .ok none
  | none => .ok none

/-- (3) Comment. -/
def rec_comment : StepRec := fun st =>
  match try_parse_comment st.chars with
  | some (cm, it') =>
    .ok (some (.comment, [Token.Comment cm],
      { chars := it', tokens := st.tokens ++ [Token.Comment cm],
        template_depth := st.template_depth }))
  | none => .ok none

/-- (4) Template-literal start. -/
def rec_template_start : StepRec := fun st =>
  match try_parse_template_literal_start st.chars with
  | .error d => .error d
  | .ok (some (content, expr_open, it')) =>
    .ok (some (.templateStart,
      Token.TemplateLiteralString content ::
        (if expr_open then [Token.TemplateLiteralExprOpen] else []),
      { chars := it',
        tokens := st.tokens ++ (Token.TemplateLiteralString content ::
          (if expr_open then [Token.TemplateLiteralExprOpen] else [])),
        template_depth := st.template_depth + 1 }))
  | .ok none => .ok none

/-- (5) Identifier / keyword / value literal / word operator. -/
def rec_ident : StepRec := fun st =>
  match try_parse_identifier st.chars with
  | .error d => .error d
  | .ok (some (parse_result, it')) =>
    .ok (some (.ident, [ident_result_token parse_result],
      { chars := it', tokens := st.tokens ++ [ident_result_token parse_result],
        template_depth := st.template_depth }))
  | .ok none => .ok none

/-- (6) Template-expression close, only if `template_depth > 0`. -/
def rec_template_expr_end : StepRec := fun st =>
  match (if st.template_depth > 0 then try_parse_template_literal_expr_end st.chars
         else .ok none) with
  | .error d => .error d
  | .ok (some (content, expr_open, it')) =>
    .ok (some (.templateExprEnd,
      Token.TemplateLiteralExprClose :: Token.TemplateLiteralString content ::
        (if expr_open then [Token.TemplateLiteralExprOpen] else []),
      { chars := it',
        tokens := st.tokens ++ (Token.TemplateLiteralExprClose ::
          Token.TemplateLiteralString content ::
          (if expr_open then [Token.TemplateLiteralExprOpen] else [])),
        template_depth := st.template_depth - 1 + (if expr_open then 1 else 0) }))
  | .ok none => .ok none

/-- (7) Regex literal (context-dependent on the previously emitted token). -/
def rec_regex : StepRec := fun st =>
  match try_parse_regex_literal st.chars st.tokens.getLast? with
  | .error d => .error d
  | .ok (some (regexp, it')) =>
    .ok (some (.regex, [Token.RegexLiteral regexp],
      { chars := it', tokens := st.tokens ++ [Token.RegexLiteral regexp],
        template_depth := st.template_depth }))
  | .ok none => .ok none

/-- (8) String literal. -/
def rec_string : StepRec := fun st =>
  match try_parse_string st.chars with
  | .error d => .error d
  | .ok (some (string_literal, it')) =>
    .ok (some (.stringLit, [Token.StringLiteral string_literal],
      { chars := it', tokens := st.tokens ++ [Token.StringLiteral string_literal],
        template_depth := st.template_depth }))
  | .ok none => .ok none

/-- (9) Numeric literal. -/
def rec_number : StepRec := fun st =>
  match try_parse_number st.chars with
  | .error d => .error d
  | .ok (some (number_value, it')) =>
    .ok (some (.number, [Token.NumericLiteral ⟨number_value⟩],
      { chars := it', tokens := st.tokens ++ [Token.NumericLiteral ⟨number_value⟩],
        template_depth := st.template_depth }))
  | .ok none => .ok none

/-- (10) Punctuation. -/
def rec_punctuation : StepRec := fun st =>
  match try_parse_punctuation st.chars with
  | some (p, it') =>
    .ok (some (.punctuation, [Token.Punctuation p],
      { chars := it', tokens := st.tokens ++ [Token.Punctuation p],
        template_depth := st.template_depth }))
  | none => .ok none

/-- (11) Operator. -/
def rec_operator : StepRec := fun st =>
  match try_parse_operator st.chars with
  | some (o, it') =>
    .ok (some (.operator, [Token.Operator o],
      { chars := it', tokens := st.tokens ++ [Token.Operator o],
        template_depth := st.template_depth }))
  | none => .ok none

/-- Try guarded recognizers in order, accepting the first success,
propagating the first diagnostic, and failing with the unrecognized-token
diagnostic when all decline. -/
def run_first : List StepRec → LexState → StepResult
  | [], st =>
    .err (current_span_error st.chars st.chars.current_position
      ("Unrecognized token " ++ quoted (st.chars.peek.getD '?')))
  | r :: rs, st =>
    match r st with
    | .error d => .err d
    | .ok (some (kind, emitted, st')) => .cont kind emitted st'
    | .ok none => run_first rs st

/-- The spec's fixed priority order of the eleven recognizers. -/
def recognizer_order : List StepRec :=
  [rec_hashbang, rec_whitespace, rec_comment, rec_template_start, rec_ident,
   rec_template_expr_end, rec_regex, rec_string, rec_number,
   rec_punctuation, rec_operator]

/-- The number of `TemplateLiteralExprOpen` markers in a token list. -/
def count_open (ts : List Token) : Nat :=
  ts.countP fun t => match t with
    | Token.TemplateLiteralExprOpen => true
    | _ => false

/-- The number of `TemplateLiteralExprClose` markers in a token list. -/
def count_close (ts : List Token) : Nat :=
  ts.countP fun t => match t with
    | Token.TemplateLiteralExprClose => true
    | _ => false

/-- Decidable equality on `Except`, so tokenizer results can be compared by
`decide`. -/
instance {ε α : Type} [DecidableEq ε] [DecidableEq α] : DecidableEq (Except ε α)
  | .ok a, .ok b =>
    if h : a = b then .isTrue (by rw [h]) else .isFalse (fun hc => by cases hc; exact h rfl)
  | .ok _, .error _ => .isFalse (fun hc => by cases hc)
  | .error _, .ok _ => .isFalse (fun hc => by cases hc)
  | .error e, .error f =>
    if h : e = f then .isTrue (by rw [h]) else .isFalse (fun hc => by cases hc; exact h rfl)

/-! ## Basic lemmas -/

theorem CodeIter.advance_remaining (it : CodeIter) (c : Char) (cs : List Char)
    (h : it.remaining = c :: cs) : (CodeIter.advance it).remaining = cs := by
  unfold CodeIter.advance
  rw [h]

theorem CodeIter.peek_eq_some (it : CodeIter) (c : Char) (h : it.peek = some c) :
    ∃ cs, it.remaining = c :: cs := by
  unfold CodeIter.peek at h
  cases hr : it.remaining with
  | nil => rw [hr] at h; cases h
  | cons c' cs => rw [hr] at h; cases h; exact ⟨cs, rfl⟩

theorem flag_char_is_alphabetic (c : Char) (h : is_regex_flag_char c = true) :
    is_rust_alphabetic c = true := by
  simp only [is_regex_flag_char, Bool.or_eq_true, decide_eq_true_eq] at h
  rcases h with ((((h | h) | h) | h) | h) | h <;> subst h <;> decide

theorem alphabetic_not_whitespace (c : Char) (h : is_rust_alphabetic c = true) :
    is_rust_whitespace c = false := by
  simp only [is_rust_alphabetic, Bool.or_eq_true, Bool.and_eq_true,
    decide_eq_true_eq] at h
  simp only [is_rust_whitespace, Bool.or_eq_false_iff, decide_eq_false_iff_not]
  omega

theorem alphabetic_ne_semicolon (c : Char) (h : is_rust_alphabetic c = true) :
    c ≠ ';' := by
  intro hc
  subst hc
  cases h

theorem line_terminator_ne_slash (c : Char) (h : is_line_terminator c = true) :
    c ≠ '/' := by
  simp only [is_line_terminator, Bool.or_eq_true, decide_eq_true_eq] at h
  rcases h with ((h | h) | h) | h <;> subst h <;> decide

/-! ## C8: determinism -/

/-- C8: Tokenization is deterministic: `tokenize` is a pure function of the
source text and source-unit name, so two calls on the same inputs return
identical results — the same token sequence on success, the same diagnostic
on failure. -/
theorem claim_C8 (src file_name : String) :
    tokenize src file_name = tokenize src file_name := rfl

/-! ## C9: the empty source unit -/

/-- C9: For every source-unit name, `tokenize` applied to the empty source
text succeeds with the empty token sequence: the driver loop's first check
finds the cursor exhausted and exits before invoking any recognizer or
producing any diagnostic. -/
theorem claim_C9 (file_name : String) : tokenize "" file_name = .ok [] := rfl

/-! ## C4: regex flag scanning -/

/-- C4: After the closing `/` of a regex literal, flag scanning greedily
consumes characters only from the closed alphabet g, i, m, s, u, y; an
alphabetic character outside this alphabet fails with an invalid-flag
diagnostic naming that character; a non-alphabetic character ends flag
scanning without being consumed.  The source's alphabetic/whitespace tests
are Rust's standard-library Unicode predicates, so the general conjuncts
quantify over the two predicates, assuming only the Unicode facts the
source relies on: the Alphabetic property is disjoint from White_Space,
does not contain the semicolon, and contains the six flag letters.
Concretely, `/foo/z` in a regex context fails with a diagnostic mentioning
flag z, while `/foo/g.` succeeds with flags `g`, leaving `.` unconsumed. -/
theorem claim_C4 :
    (∀ (is_whitespace is_alphabetic : Char → Bool) (fuel : Nat) (it : CodeIter)
        (lexeme : String) (c : Char),
        it.peek = some c → is_regex_flag_char c = true →
        parse_regex_flags_loop is_whitespace is_alphabetic (fuel + 1) it lexeme =
          parse_regex_flags_loop is_whitespace is_alphabetic fuel it.advance
            (lexeme.push c)) ∧
    (∀ is_whitespace is_alphabetic : Char → Bool,
        (∀ x, is_alphabetic x = true → is_whitespace x = false) →
        is_alphabetic ';' = false →
        ∀ (fuel : Nat) (it : CodeIter) (lexeme : String) (c : Char),
          it.peek = some c → is_regex_flag_char c = false →
          is_alphabetic c = true →
          parse_regex_flags_loop is_whitespace is_alphabetic (fuel + 1) it lexeme =
            .error (current_span_error it it.current_position
              ("Invalid regular expression flag " ++ quoted c))) ∧
    (∀ is_whitespace is_alphabetic : Char → Bool,
        (∀ x, is_regex_flag_char x = true → is_alphabetic x = true) →
        ∀ (fuel : Nat) (it : CodeIter) (lexeme : String) (c : Char),
          it.peek = some c → is_alphabetic c = false →
          parse_regex_flags_loop is_whitespace is_alphabetic (fuel + 1) it lexeme =
            .ok (lexeme, it)) ∧
    (∃ d : Diag, try_parse_regex_literal (mkIter "/foo/z" "f") none = .error d ∧
        d.message = "Invalid regular expression flag " ++ quoted 'z') ∧
    (∃ it' : CodeIter, try_parse_regex_literal (mkIter "/foo/g." "f") none =
        .ok (some (⟨"foo", "g"⟩, it')) ∧ it'.remaining = ['.']) := by
  refine ⟨?_, ?_, ?_, ?_, ?_⟩
  · intro is_whitespace is_alphabetic fuel it lexeme c hpk hflag
    obtain ⟨cs, hr⟩ := CodeIter.peek_eq_some it c hpk
    simp only [parse_regex_flags_loop, hr, hflag, if_true]
  · intro is_whitespace is_alphabetic hdisj hsemi fuel it lexeme c hpk hflag halpha
    obtain ⟨cs, hr⟩ := CodeIter.peek_eq_some it c hpk
    have hsem : c ≠ ';' := by
      intro hc
      rw [hc] at halpha
      rw [halpha] at hsemi
      cases hsemi
    simp only [parse_regex_flags_loop, hr, hflag, Bool.false_eq_true, if_false,
      hdisj c halpha, if_neg hsem, halpha, if_true]
  · intro is_whitespace is_alphabetic hsub fuel it lexeme c hpk halpha
    obtain ⟨cs, hr⟩ := CodeIter.peek_eq_some it c hpk
    have hflag : is_regex_flag_char c = false := by
      cases hf : is_regex_flag_char c
      · rfl
      · exact absurd (hsub c hf) (by simp [halpha])
    simp only [parse_regex_flags_loop, hr, hflag, halpha, Bool.false_eq_true, if_false]
    split_ifs <;> rfl
  · exact ⟨_, rfl, rfl⟩
  · exact ⟨_, rfl, rfl⟩

/-! ## C5: regex pattern scanning diagnostics -/

/-- C5: Once the regex recognizer has committed (the opening `/` is
consumed), pattern scanning fails with a line-terminator diagnostic if a
line terminator appears before the closing `/`, and with an
unterminated-regex diagnostic at EOF.  Concretely, `/foo\n/z` in a regex
context fails with the line-terminator diagnostic, not an invalid-flag
one. -/
theorem claim_C5 :
    (∀ (fuel : Nat) (it : CodeIter) (start : SourcePosition) (lexeme : String),
        it.remaining = [] →
        parse_regex_pattern_loop (fuel + 1) it start lexeme =
          .error (previous_span_error it start
            "Unexpected EOF while parsing regular expression")) ∧
    (∀ (fuel : Nat) (it : CodeIter) (start : SourcePosition) (lexeme : String) (c : Char),
        it.peek = some c → is_line_terminator c = true →
        parse_regex_pattern_loop (fuel + 1) it start lexeme =
          .error (previous_span_error it.advance start
            "Unexpected line terminator while parsing regular expression")) ∧
    (∃ d : Diag, try_parse_regex_literal (mkIter "/foo\n/z" "f") none = .error d ∧
        d.message = "Unexpected line terminator while parsing regular expression" ∧
        d.message ≠ "Invalid regular expression flag " ++ quoted 'z') := by
  refine ⟨?_, ?_, ?_⟩
  · intro fuel it start lexeme hr
    simp only [parse_regex_pattern_loop, hr]
  · intro fuel it start lexeme c hpk hlt
    obtain ⟨cs, hr⟩ := CodeIter.peek_eq_some it c hpk
    simp only [parse_regex_pattern_loop, hr,
      if_neg (line_terminator_ne_slash c hlt), hlt, if_true]
  · exact ⟨_, rfl, rfl, by decide⟩

/-- Witness for C4: the three flag-scanning behaviors at concrete inputs —
consuming `g`, rejecting `z`, stopping before `.` — with the predicate
parameters instantiated at the executable stand-ins, whose required Unicode
facts are discharged by the lemmas above. -/
theorem claim_C4_witness :
    (parse_regex_flags_loop is_rust_whitespace is_rust_alphabetic 2
        (mkIter "g." "f") "" =
      parse_regex_flags_loop is_rust_whitespace is_rust_alphabetic 1
        (mkIter "g." "f").advance (String.push "" 'g')) ∧
    (parse_regex_flags_loop is_rust_whitespace is_rust_alphabetic 1
        (mkIter "z" "f") "" =
      .error (current_span_error (mkIter "z" "f") (mkIter "z" "f").current_position
        ("Invalid regular expression flag " ++ quoted 'z'))) ∧
    (parse_regex_flags_loop is_rust_whitespace is_rust_alphabetic 1
        (mkIter "." "f") "" = .ok ("", mkIter "." "f")) :=
  ⟨claim_C4.1 is_rust_whitespace is_rust_alphabetic 1 (mkIter "g." "f") "" 'g'
    rfl (by decide),
   claim_C4.2.1 is_rust_whitespace is_rust_alphabetic alphabetic_not_whitespace
    (by decide) 0 (mkIter "z" "f") "" 'z' rfl (by decide) (by decide),
   claim_C4.2.2.1 is_rust_whitespace is_rust_alphabetic flag_char_is_alphabetic
    0 (mkIter "." "f") "" '.' rfl (by decide)⟩

/-- Witness for C5: the EOF and line-terminator diagnostics at concrete
inputs. -/
theorem claim_C5_witness :
    (parse_regex_pattern_loop 1 (mkIter "" "f") ⟨0, 1, 1⟩ "" =
      .error (previous_span_error (mkIter "" "f") ⟨0, 1, 1⟩
        "Unexpected EOF while parsing regular expression")) ∧
    (parse_regex_pattern_loop 1 (mkIter "\n" "f") ⟨0, 1, 1⟩ "" =
      .error (previous_span_error (mkIter "\n" "f").advance ⟨0, 1, 1⟩
        "Unexpected line terminator while parsing regular expression")) :=
  ⟨claim_C5.1 0 (mkIter "" "f") ⟨0, 1, 1⟩ "" rfl,
   claim_C5.2.1 0 (mkIter "\n" "f") ⟨0, 1, 1⟩ "" '\n' rfl (by decide)⟩

/-! ## C6: greedy longest match -/

theorem mem_le_max_lexeme_length {α : Type} (table : List (String × α))
    (e : String × α) (he : e ∈ table) : e.1.length ≤ max_lexeme_length table := by
  induction table with
  | nil => cases he
  | cons hd tl ih =>
    rcases List.mem_cons.mp he with he | he
    · subst he
      exact le_max_left _ _
    · exact le_trans (ih he) (le_max_right _ _)

theorem longest_match_aux_spec {α : Type} (table : List (String × α))
    (s : List Char) (N : Nat) (lex : String) (k : α)
    (h : longest_match_aux table s N = some (lex, k)) :
    (lex, k) ∈ table ∧ 1 ≤ lex.length ∧ lex.length ≤ N ∧
      s.take lex.length = lex.data ∧
      ∀ e ∈ table, e.1.length ≤ N → s.take e.1.length = e.1.data →
        e.1.length ≤ lex.length := by
  induction N with
  | zero => cases h
  | succ n ih =>
    simp only [longest_match_aux] at h
    cases hf : lookup_lexeme_of_length table s (n + 1) with
    | some e =>
      rw [hf] at h
      cases h
      have hmem := List.mem_of_find?_eq_some hf
      have hpred := List.find?_some hf
      simp only [Bool.and_eq_true, beq_iff_eq] at hpred
      obtain ⟨hlen, hdata⟩ := hpred
      refine ⟨hmem, by omega, by omega, by rw [hlen, ← hdata], ?_⟩
      intro e' _ hlen' _
      omega
    | none =>
      rw [hf] at h
      obtain ⟨h1, h2, h3, h4, h5⟩ := ih h
      refine ⟨h1, h2, le_trans h3 (Nat.le_succ n), h4, ?_⟩
      intro e he hlen hmatch
      rcases Nat.lt_or_ge e.1.length (n + 1) with hlt | hge
      · exact h5 e he (Nat.lt_succ_iff.mp hlt) hmatch
      · exfalso
        have hexact : e.1.length = n + 1 := le_antisymm hlen hge
        have hnone := List.find?_eq_none.mp hf e he
        rw [hexact] at hmatch
        simp [hexact, ← hmatch] at hnone

/-- C6: Fixed-lexeme recognition is greedy longest match over the static
operator table: `===` tokenizes as exactly one strict-equality operator
token, and in general a successful `try_parse_operator` match consumes a
table lexeme no shorter than any other table lexeme matching at the same
position. -/
theorem claim_C6 :
    tokenize "===" "f" = .ok [Token.Operator ⟨OperatorType.StrictEquality⟩] ∧
    (∀ (it : CodeIter) (o : Operator) (it' : CodeIter),
        try_parse_operator it = some (o, it') →
        ∃ lex : String, (lex, o.kind) ∈ operator_lookup_table ∧
          1 ≤ lex.length ∧
          it.remaining.take lex.length = lex.data ∧
          it' = it.advanceN lex.length ∧
          ∀ e ∈ operator_lookup_table,
            it.remaining.take e.1.length = e.1.data → e.1.length ≤ lex.length) := by
  constructor
  · decide
  · intro it o it' h
    unfold try_parse_operator try_parse_from_lookup_table at h
    cases hm : longest_match_aux operator_lookup_table it.remaining
        (max_lexeme_length operator_lookup_table) with
    | none => rw [hm] at h; cases h
    | some e =>
      obtain ⟨lex, k⟩ := e
      rw [hm] at h
      cases h
      obtain ⟨h1, h2, _, h4, h5⟩ := longest_match_aux_spec _ _ _ _ _ hm
      exact ⟨lex, h1, h2, h4, rfl,
        fun e he hm2 => h5 e he (mem_le_max_lexeme_length _ e he) hm2⟩

/-- Witness for C6: the general longest-match property applied to the
cursor at `===`, which `try_parse_operator` accepts as one strict-equality
lexeme. -/
theorem claim_C6_witness :
    ∃ lex : String,
      (lex, (⟨OperatorType.StrictEquality⟩ : Operator).kind) ∈ operator_lookup_table ∧
      1 ≤ lex.length ∧
      (mkIter "===" "f").remaining.take lex.length = lex.data ∧
      (⟨"f", [], ⟨3, 1, 4⟩⟩ : CodeIter) = (mkIter "===" "f").advanceN lex.length ∧
      ∀ e ∈ operator_lookup_table,
        (mkIter "===" "f").remaining.take e.1.length = e.1.data →
          e.1.length ≤ lex.length :=
  claim_C6.2 (mkIter "===" "f") ⟨OperatorType.StrictEquality⟩
    ⟨"f", [], ⟨3, 1, 4⟩⟩ (by decide)

/-! ## C1: regex vs. division disambiguation -/

theorem regex_allowed_iff (prev : Option Token) :
    regex_allowed_prev prev = true ↔
      (prev = none ∨ (∃ o : Operator, prev = some (Token.Operator o)) ∨
       prev = some (Token.Punctuation ⟨PunctuationType.Comma⟩) ∨
       prev = some (Token.Punctuation ⟨PunctuationType.OpenParen⟩)) := by
  cases prev with
  | none => simp [regex_allowed_prev]
  | some t =>
    cases t with
    | Operator o => simp [regex_allowed_prev]
    | Punctuation p =>
      obtain ⟨k⟩ := p
      cases k <;> simp [regex_allowed_prev]
    | _ => simp [regex_allowed_prev]

theorem regex_no_match (it : CodeIter) (prev : Option Token)
    (h : regex_allowed_prev prev = false) :
    try_parse_regex_literal it prev = .ok none := by
  unfold try_parse_regex_literal
  rw [h]
  simp

theorem regex_commits (it : CodeIter) (prev : Option Token)
    (hpk : it.peek = some '/') (h : regex_allowed_prev prev = true) :
    try_parse_regex_literal it prev ≠ .ok none := by
  unfold try_parse_regex_literal
  rw [h, hpk]
  simp only [if_true, if_pos rfl]
  cases hp : parse_regex_pattern it.advance with
  | error d => simp
  | ok pr =>
    obtain ⟨pat, it₁⟩ := pr
    cases hf : parse_regex_flags it₁ with
    | error d => simp [hf]
    | ok fl =>
      obtain ⟨flags, it₂⟩ := fl
      simp [hf]

/-- C1: A `/` at the current position opens a regex literal if and only if
the previously emitted token is `None`, an Operator, or a comma or
open-parenthesis Punctuation; in every other case the regex recognizer
reports no match (`Ok(None)`, leaving the cursor untouched by
construction), so the `/` falls through to operator recognition as
division.  Concretely, `(1) / 2` tokenizes as OpenParen, NumericLiteral 1,
CloseParen, the Division operator, NumericLiteral 2. -/
theorem claim_C1 :
    (∀ (it : CodeIter) (prev : Option Token), it.peek = some '/' →
        ((prev = none ∨ (∃ o : Operator, prev = some (Token.Operator o)) ∨
          prev = some (Token.Punctuation ⟨PunctuationType.Comma⟩) ∨
          prev = some (Token.Punctuation ⟨PunctuationType.OpenParen⟩)) ↔
          try_parse_regex_literal it prev ≠ .ok none)) ∧
    tokenize "(1) / 2" "script.js" = .ok
      [Token.Punctuation ⟨PunctuationType.OpenParen⟩, Token.NumericLiteral ⟨1⟩,
       Token.Punctuation ⟨PunctuationType.CloseParen⟩,
       Token.Operator ⟨OperatorType.Division⟩, Token.NumericLiteral ⟨2⟩] := by
  constructor
  · intro it prev hpk
    constructor
    · intro hd
      exact regex_commits it prev hpk ((regex_allowed_iff prev).mpr hd)
    · intro hne
      cases hal : regex_allowed_prev prev with
      | false => exact absurd (regex_no_match it prev hal) hne
      | true => exact (regex_allowed_iff prev).mp hal
  · decide

/-- Witness for C1: at the start of a source unit (previous token `None`)
the recognizer commits on `/x/`. -/
theorem claim_C1_witness :
    try_parse_regex_literal (mkIter "/x/" "f") none ≠ .ok none :=
  (claim_C1.1 (mkIter "/x/" "f") none rfl).mp (Or.inl rfl)

/-! ## C10: no escape handling inside the regex pattern scanner -/

/-- Pattern scanning stops at the first `/` after the opening delimiter,
with no treatment of backslashes: if the remaining input is `pre ++ / ::
post` with no `/` or line terminator in `pre`, the loop returns exactly
`pre` (appended to the accumulator) and leaves `post` unconsumed. -/
theorem pattern_loop_no_escape (pre : List Char) :
    ∀ (fuel : Nat) (it : CodeIter) (start : SourcePosition) (acc : String)
      (post : List Char),
      it.remaining = pre ++ '/' :: post →
      (∀ c ∈ pre, c ≠ '/' ∧ is_line_terminator c = false) →
      pre.length + 1 ≤ fuel →
      ∃ it' : CodeIter,
        parse_regex_pattern_loop fuel it start acc = .ok (⟨acc.data ++ pre⟩, it') ∧
        it'.remaining = post := by
  induction pre with
  | nil =>
    intro fuel it start acc post hrem hpre hfuel
    cases fuel with
    | zero => omega
    | succ n =>
      simp only [List.nil_append] at hrem
      refine ⟨it.advance, ?_, CodeIter.advance_remaining it _ _ hrem⟩
      obtain ⟨accl⟩ := acc
      simp [parse_regex_pattern_loop, hrem]
  | cons c pre' ihp =>
    intro fuel it start acc post hrem hpre hfuel
    cases fuel with
    | zero => simp at hfuel
    | succ n =>
      have hc := hpre c (List.mem_cons_self c pre')
      have hrem' : it.remaining = c :: (pre' ++ '/' :: post) := by simpa using hrem
      have hadv : it.advance.remaining = pre' ++ '/' :: post :=
        CodeIter.advance_remaining it _ _ hrem'
      obtain ⟨it', hloop, hpost⟩ := ihp n it.advance start (acc.push c) post hadv
        (fun c' hc' => hpre c' (List.mem_cons_of_mem c hc'))
        (by simp only [List.length_cons] at hfuel; omega)
      refine ⟨it', ?_, hpost⟩
      simp only [parse_regex_pattern_loop, hrem', if_neg hc.1, hc.2,
        Bool.false_eq_true, if_false]
      rw [hloop]
      obtain ⟨accl⟩ := acc
      simp [String.push]

/-- Counterexample to C10 as stated: on the claim's own example input
`/a\/b/` in a regex context, the recognizer does not emit any RegexLiteral
at all — after the pattern scanner stops at the escaped slash, flag
scanning hits the alphabetic `b` and aborts with an invalid-flag
diagnostic. -/
theorem claim_C10_counterexample :
    ¬ ∃ (r : RegexLiteral) (it' : CodeIter),
        try_parse_regex_literal (mkIter "/a\\/b/" "f") none = .ok (some (r, it')) := by
  have hc : try_parse_regex_literal (mkIter "/a\\/b/" "f") none =
      .error ⟨"f", ⟨4, 1, 5⟩, ⟨4, 1, 5⟩, "Invalid regular expression flag " ++ quoted 'b'⟩ :=
    by decide
  rintro ⟨r, it', h⟩
  rw [hc] at h
  cases h

/-- C10 (amended): Regex pattern scanning ends at the first `/` after the
opening delimiter even when that `/` is immediately preceded by a
backslash — there is no escape handling in the pattern scanner, so for
`/a\/b/` the scanned pattern is `a\` and `b/` is left unconsumed by the
pattern scanner.  However, the full recognizer then resumes with flag
scanning, which fails on the alphabetic `b` with an invalid-flag
diagnostic, so no RegexLiteral token is emitted for this particular
input. -/
theorem claim_C10 :
    (∀ (fuel : Nat) (it : CodeIter) (start : SourcePosition) (acc : String)
        (pre post : List Char),
        it.remaining = pre ++ '/' :: post →
        (∀ c ∈ pre, c ≠ '/' ∧ is_line_terminator c = false) →
        pre.length + 1 ≤ fuel →
        ∃ it' : CodeIter,
          parse_regex_pattern_loop fuel it start acc = .ok (⟨acc.data ++ pre⟩, it') ∧
          it'.remaining = post) ∧
    (∃ it' : CodeIter,
        parse_regex_pattern ((mkIter "/a\\/b/" "f").advance) = .ok ("a\\", it') ∧
        it'.remaining = ['b', '/']) ∧
    (∃ d : Diag, try_parse_regex_literal (mkIter "/a\\/b/" "f") none = .error d ∧
        d.message = "Invalid regular expression flag " ++ quoted 'b') := by
  refine ⟨fun fuel it start acc pre post h1 h2 h3 =>
    pattern_loop_no_escape pre fuel it start acc post h1 h2 h3, ?_, ?_⟩
  · exact ⟨_, rfl, rfl⟩
  · exact ⟨_, rfl, rfl⟩

/-- Witness for C10: the pattern scanner applied to `a\/b/` with the
escaped slash in front returns pattern `a\` and leaves `b/`. -/
theorem claim_C10_witness :
    ∃ it' : CodeIter,
      parse_regex_pattern_loop 3 (mkIter "a\\/b/" "f") ⟨0, 1, 1⟩ "" =
        .ok (⟨"".data ++ ['a', '\\']⟩, it') ∧ it'.remaining = ['b', '/'] :=
  claim_C10.1 3 (mkIter "a\\/b/" "f") ⟨0, 1, 1⟩ "" ['a', '\\'] ['b', '/']
    rfl (by decide) (by decide)

/-! ## C2: the template-depth counter -/

/-- Counterexample to C2 as stated: if every depth change were tied to a
`TemplateLiteralExprOpen` (+1) or `TemplateLiteralExprClose` (−1) emission,
the final depth of a successful call would equal the number of Opens minus
the number of Closes among the emitted tokens.  On the expressionless
template `` `a` `` the call succeeds, emits one `TemplateLiteralString` and
no Open/Close markers, yet ends with `template_depth = 1`: the driver
increments the counter at every template-literal start, whether or not an
ExprOpen marker is emitted. -/
theorem claim_C2_counterexample :
    ¬ ∀ (src file_name : String) (ts : List Token) (d : Int),
        tokenize_with_depth src file_name = .ok (ts, d) →
        d = (count_open ts : Int) - (count_close ts : Int) := by
  intro hclaim
  have h := hclaim "`a`" "f" [Token.TemplateLiteralString ⟨"a", true⟩] 1 (by decide)
  exact absurd h (by decide)

@[simp] theorem count_open_nil : count_open [] = 0 := rfl

@[simp] theorem count_close_nil : count_close [] = 0 := rfl

@[simp] theorem count_open_cons_expr_open (ts : List Token) :
    count_open (Token.TemplateLiteralExprOpen :: ts) = count_open ts + 1 := by
  simp [count_open, List.countP_cons]

@[simp] theorem count_close_cons_expr_open (ts : List Token) :
    count_close (Token.TemplateLiteralExprOpen :: ts) = count_close ts := by
  simp [count_close, List.countP_cons]

@[simp] theorem count_open_cons_expr_close (ts : List Token) :
    count_open (Token.TemplateLiteralExprClose :: ts) = count_open ts := by
  simp [count_open, List.countP_cons]

@[simp] theorem count_close_cons_expr_close (ts : List Token) :
    count_close (Token.TemplateLiteralExprClose :: ts) = count_close ts + 1 := by
  simp [count_close, List.countP_cons]

@[simp] theorem count_open_cons_keyword (k : Keyword) (ts : List Token) :
    count_open (Token.Keyword k :: ts) = count_open ts := by
  simp [count_open, List.countP_cons]

@[simp] theorem count_close_cons_keyword (k : Keyword) (ts : List Token) :
    count_close (Token.Keyword k :: ts) = count_close ts := by
  simp [count_close, List.countP_cons]

@[simp] theorem count_open_cons_ident (i : Identifier) (ts : List Token) :
    count_open (Token.Ident i :: ts) = count_open ts := by
  simp [count_open, List.countP_cons]

@[simp] theorem count_close_cons_ident (i : Identifier) (ts : List Token) :
    count_close (Token.Ident i :: ts) = count_close ts := by
  simp [count_close, List.countP_cons]

@[simp] theorem count_open_cons_value_literal (v : ValueLiteral) (ts : List Token) :
    count_open (Token.ValueLiteral v :: ts) = count_open ts := by
  simp [count_open, List.countP_cons]

@[simp] theorem count_close_cons_value_literal (v : ValueLiteral) (ts : List Token) :
    count_close (Token.ValueLiteral v :: ts) = count_close ts := by
  simp [count_close, List.countP_cons]

@[simp] theorem count_open_cons_operator (o : Operator) (ts : List Token) :
    count_open (Token.Operator o :: ts) = count_open ts := by
  simp [count_open, List.countP_cons]

@[simp] theorem count_close_cons_operator (o : Operator) (ts : List Token) :
    count_close (Token.Operator o :: ts) = count_close ts := by
  simp [count_close, List.countP_cons]

@[simp] theorem count_open_cons_punctuation (p : Punctuation) (ts : List Token) :
    count_open (Token.Punctuation p :: ts) = count_open ts := by
  simp [count_open, List.countP_cons]

@[simp] theorem count_close_cons_punctuation (p : Punctuation) (ts : List Token) :
    count_close (Token.Punctuation p :: ts) = count_close ts := by
  simp [count_close, List.countP_cons]

@[simp] theorem count_open_cons_comment (c : Comment) (ts : List Token) :
    count_open (Token.Comment c :: ts) = count_open ts := by
  simp [count_open, List.countP_cons]

@[simp] theorem count_close_cons_comment (c : Comment) (ts : List Token) :
    count_close (Token.Comment c :: ts) = count_close ts := by
  simp [count_close, List.countP_cons]

@[simp] theorem count_open_cons_numeric (n : NumberLiteral) (ts : List Token) :
    count_open (Token.NumericLiteral n :: ts) = count_open ts := by
  simp [count_open, List.countP_cons]

@[simp] theorem count_close_cons_numeric (n : NumberLiteral) (ts : List Token) :
    count_close (Token.NumericLiteral n :: ts) = count_close ts := by
  simp [count_close, List.countP_cons]

@[simp] theorem count_open_cons_string (s : StringLiteral) (ts : List Token) :
    count_open (Token.StringLiteral s :: ts) = count_open ts := by
  simp [count_open, List.countP_cons]

@[simp] theorem count_close_cons_string (s : StringLiteral) (ts : List Token) :
    count_close (Token.StringLiteral s :: ts) = count_close ts := by
  simp [count_close, List.countP_cons]

@[simp] theorem count_open_cons_template_string (t : TemplateLiteralString)
    (ts : List Token) :
    count_open (Token.TemplateLiteralString t :: ts) = count_open ts := by
  simp [count_open, List.countP_cons]

@[simp] theorem count_close_cons_template_string (t : TemplateLiteralString)
    (ts : List Token) :
    count_close (Token.TemplateLiteralString t :: ts) = count_close ts := by
  simp [count_close, List.countP_cons]

@[simp] theorem count_open_cons_regex (r : RegexLiteral) (ts : List Token) :
    count_open (Token.RegexLiteral r :: ts) = count_open ts := by
  simp [count_open, List.countP_cons]

@[simp] theorem count_close_cons_regex (r : RegexLiteral) (ts : List Token) :
    count_close (Token.RegexLiteral r :: ts) = count_close ts := by
  simp [count_close, List.countP_cons]

@[simp] theorem count_open_cons_ident_result (r : IdentParseResult) (ts : List Token) :
    count_open (ident_result_token r :: ts) = count_open ts := by
  cases r <;> simp [ident_result_token]

@[simp] theorem count_close_cons_ident_result (r : IdentParseResult) (ts : List Token) :
    count_close (ident_result_token r :: ts) = count_close ts := by
  cases r <;> simp [ident_result_token]

/-- C2 (amended): The session counter `template_depth` never goes negative:
each dispatch step preserves non-negativity, and the depth change of a step
is +1 at a template-literal start — whether or not a
`TemplateLiteralExprOpen` marker is emitted there — and otherwise exactly
the number of `TemplateLiteralExprOpen` markers minus the number of
`TemplateLiteralExprClose` markers emitted in that step (so an ExprClose
decrements by exactly one, guarded by `template_depth > 0`). -/
theorem claim_C2 (st : LexState) (k : StepKind) (ts : List Token) (st' : LexState)
    (h : dispatchStep st = .cont k ts st') :
    (st'.template_depth = st.template_depth +
      (if k = StepKind.templateStart then 1
       else (count_open ts : Int) - (count_close ts : Int))) ∧
    (0 ≤ st.template_depth → 0 ≤ st'.template_depth) := by
  unfold dispatchStep at h
  repeat' split at h
  all_goals cases h
  all_goals by_cases hdep : 0 < st.template_depth
  all_goals constructor
  all_goals simp_all
  all_goals try omega

/-- Witness for C2: the dispatch step at the start of `` `a` ``, a template
start that emits no ExprOpen marker but still increments the depth. -/
theorem claim_C2_witness :
    ((⟨⟨"f", [], ⟨3, 1, 4⟩⟩, [Token.TemplateLiteralString ⟨"a", true⟩], 1⟩ :
        LexState).template_depth =
      (⟨mkIter "`a`" "f", [], 0⟩ : LexState).template_depth +
        (if StepKind.templateStart = StepKind.templateStart then 1
         else (count_open [Token.TemplateLiteralString ⟨"a", true⟩] : Int) -
           (count_close [Token.TemplateLiteralString ⟨"a", true⟩] : Int))) ∧
    (0 ≤ (⟨mkIter "`a`" "f", [], 0⟩ : LexState).template_depth →
      0 ≤ (⟨⟨"f", [], ⟨3, 1, 4⟩⟩, [Token.TemplateLiteralString ⟨"a", true⟩], 1⟩ :
        LexState).template_depth) :=
  claim_C2 ⟨mkIter "`a`" "f", [], 0⟩ StepKind.templateStart
    [Token.TemplateLiteralString ⟨"a", true⟩]
    ⟨⟨"f", [], ⟨3, 1, 4⟩⟩, [Token.TemplateLiteralString ⟨"a", true⟩], 1⟩
    (by decide)

/-! ## C3 and C7: the dispatch priority order and the failure case -/

theorem run_first_all_none (rs : List StepRec) (st : LexState)
    (h : ∀ r ∈ rs, r st = .ok none) :
    run_first rs st =
      .err (current_span_error st.chars st.chars.current_position
        ("Unrecognized token " ++ quoted (st.chars.peek.getD '?'))) := by
  induction rs with
  | nil => rfl
  | cons r rs ih =>
    simp only [run_first, h r (List.mem_cons_self r rs)]
    exact ih fun r' hr' => h r' (List.mem_cons_of_mem r hr')

theorem dispatch_eq_run_first (st : LexState) (c : Char)
    (hpk : st.chars.peek = some c) :
    dispatchStep st = run_first recognizer_order st := by
  unfold dispatchStep
  simp only [recognizer_order, run_first, rec_hashbang, rec_whitespace, rec_comment,
    rec_template_start, rec_ident, rec_template_expr_end, rec_regex, rec_string,
    rec_number, rec_punctuation, rec_operator, hpk, Option.getD_some]
  cases hhb : (if st.tokens.isEmpty then try_parse_hashbang_comment st.chars else none) with
  | some pr =>
    obtain ⟨cm, it'⟩ := pr
    simp only [hhb]
  | none =>
  simp only [hhb]
  by_cases hws : is_rust_whitespace c
  · simp only [hws, if_true]
  · simp only [hws, Bool.false_eq_true, if_false]
    cases hcm : try_parse_comment st.chars with
    | some pr =>
      obtain ⟨cm, it'⟩ := pr
      simp only [hcm]
    | none =>
    simp only [hcm]
    cases hts : try_parse_template_literal_start st.chars with
    | error d => simp only [hts]
    | ok o =>
    cases o with
    | some pr =>
      obtain ⟨content, expr_open, it'⟩ := pr
      simp only [hts]
    | none =>
    simp only [hts]
    cases hid : try_parse_identifier st.chars with
    | error d => simp only [hid]
    | ok o =>
    cases o with
    | some pr =>
      obtain ⟨parse_result, it'⟩ := pr
      simp only [hid]
    | none =>
    simp only [hid]
    cases hte : (if st.template_depth > 0 then try_parse_template_literal_expr_end st.chars
        else .ok none) with
    | error d => simp only [hte]
    | ok o =>
    cases o with
    | some pr =>
      obtain ⟨content, expr_open, it'⟩ := pr
      simp only [hte]
    | none =>
    simp only [hte]
    cases hrx : try_parse_regex_literal st.chars st.tokens.getLast? with
    | error d => simp only [hrx]
    | ok o =>
    cases o with
    | some pr =>
      obtain ⟨regexp, it'⟩ := pr
      simp only [hrx]
    | none =>
    simp only [hrx]
    cases hstr : try_parse_string st.chars with
    | error d => simp only [hstr]
    | ok o =>
    cases o with
    | some pr =>
      obtain ⟨string_literal, it'⟩ := pr
      simp only [hstr]
    | none =>
    simp only [hstr]
    cases hnum : try_parse_number st.chars with
    | error d => simp only [hnum]
    | ok o =>
    cases o with
    | some pr =>
      obtain ⟨number_value, it'⟩ := pr
      simp only [hnum]
    | none =>
    simp only [hnum]
    cases hpc : try_parse_punctuation st.chars with
    | some pr =>
      obtain ⟨p, it'⟩ := pr
      simp only [hpc]
    | none =>
    simp only [hpc]
    cases hop : try_parse_operator st.chars with
    | some pr =>
      obtain ⟨o, it'⟩ := pr
      simp only [hop]
    | none =>
    simp only [hop]

/-- C3: At each position with input remaining, the driver's dispatch step
is exactly the first-success fold over the eleven guarded recognizers in
the spec's fixed priority order — hashbang (only before any token),
whitespace, comment, template start, identifier, template-expression close
(only at positive depth), regex, string, number, punctuation, operator —
and when every recognizer declines, the iteration fails with the
unrecognized-token diagnostic. -/
theorem claim_C3 (st : LexState) (c : Char) (hpk : st.chars.peek = some c) :
    dispatchStep st = run_first recognizer_order st ∧
    ((∀ r ∈ recognizer_order, r st = .ok none) →
      dispatchStep st =
        .err (current_span_error st.chars st.chars.current_position
          ("Unrecognized token " ++ quoted c))) := by
  refine ⟨dispatch_eq_run_first st c hpk, fun hall => ?_⟩
  rw [dispatch_eq_run_first st c hpk, run_first_all_none _ _ hall, hpk]
  rfl

/-- Witness for C3: the dispatch step on the unrecognized character `@`. -/
theorem claim_C3_witness :
    dispatchStep ⟨mkIter "@" "f", [], 0⟩ =
        run_first recognizer_order ⟨mkIter "@" "f", [], 0⟩ ∧
    dispatchStep ⟨mkIter "@" "f", [], 0⟩ =
      .err (current_span_error (mkIter "@" "f") (mkIter "@" "f").current_position
        ("Unrecognized token " ++ quoted '@')) :=
  ⟨(claim_C3 ⟨mkIter "@" "f", [], 0⟩ '@' rfl).1,
   (claim_C3 ⟨mkIter "@" "f", [], 0⟩ '@' rfl).2 (by decide)⟩

/-- C7: When input remains and no recognizer succeeds, the driver loop
returns `Err` with a single diagnostic at the current position whose
message names the offending character; by the `Except` return type, the
error carries no partial token sequence. -/
theorem claim_C7 (fuel : Nat) (st : LexState) (c : Char)
    (hpk : st.chars.peek = some c)
    (hall : ∀ r ∈ recognizer_order, r st = .ok none) :
    tokenize_loop (fuel + 1) st =
      .error (current_span_error st.chars st.chars.current_position
        ("Unrecognized token " ++ quoted c)) := by
  have hd : dispatchStep st =
      .err (current_span_error st.chars st.chars.current_position
        ("Unrecognized token " ++ quoted c)) := by
    rw [dispatch_eq_run_first st c hpk, run_first_all_none _ _ hall, hpk]
    rfl
  simp only [tokenize_loop, hd]

/-- Witness for C7: one loop iteration on the source `@`, which no
recognizer claims. -/
theorem claim_C7_witness :
    tokenize_loop 1 ⟨mkIter "@" "f", [], 0⟩ =
      .error (current_span_error (mkIter "@" "f") (mkIter "@" "f").current_position
        ("Unrecognized token " ++ quoted '@')) :=
  claim_C7 0 ⟨mkIter "@" "f", [], 0⟩ '@' rfl (by decide)

end Yab
